import Mathlib

/-!
Verification of the record-reconciliation and dual-store synchronization
pipeline of the CV-analysis service.

The relational identity store (`Store`) holds `Person` rows, each owning its
`Education` and `ResumeFile` rows (mirroring the SQLAlchemy relationships
with cascade delete in `modules/models.py`).  The vector index is a list of
`EmbPoint`s (one qdrant point per resume, `modules/embedder.py`).  Python
dictionaries keyed by the `(institution, field, degree)` triple are embedded
with their exact semantics: first-occurrence key order, last-written value.
-/

set_option maxHeartbeats 1000000

/-- One study record (`modules/models.py`, class `Education`). -/
structure Education where
  institution : String
  degree : String
  field : String
  start_date : Option String
  end_date : Option String
  person_id : Nat := 0
deriving Repr, DecidableEq

/-- One uploaded document (`modules/models.py`, class `ResumeFile`).
`status` ranges over the strings "QUEUED", "SUCCESS", "ERROR". -/
structure ResumeFile where
  id : Nat := 0
  person_id : Nat := 0
  filename : String := ""
  storage_url : String := ""
  status : String := "QUEUED"
deriving Repr, DecidableEq

/-- One candidate identity (`modules/models.py`, class `Person`), owning its
educations and resume files as in the ORM relationships. -/
structure Person where
  id : Nat := 0
  full_name : String := ""
  email : String := ""
  phone : String := ""
  summary : String := ""
  educations : List Education := []
  resume_files : List ResumeFile := []
deriving Repr, DecidableEq

/-- The relational identity store: the `person` table (rows owning their
children) plus the id sequences the database assigns from. -/
structure Store where
  persons : List Person := []
  nextPid : Nat := 1
  nextRid : Nat := 1
deriving Repr, DecidableEq

/-- The dedup key of `crud.py` lines 25 and 129:
`(edu.institution, edu.field, edu.degree)`. -/
def eduKey (e : Education) : String × String × String :=
  (e.institution, e.field, e.degree)

/-- One step of building the Python dict
`{(edu.institution, edu.field, edu.degree): edu for edu in educations}`:
if the key is already present its value is overwritten in place, otherwise
the entry is appended. -/
def dictInsert (acc : List Education) (e : Education) : List Education :=
  if acc.any (fun x => eduKey x = eduKey e) then
    acc.map (fun x => if eduKey x = eduKey e then e else x)
  else acc ++ [e]

/-- `list({(edu.institution, edu.field, edu.degree): edu for edu in educations}.values())`
(`crud.py` lines 25 and 129): keys in first-occurrence order, each carrying
the LAST value written for that key. -/
def dedupEducations (edus : List Education) : List Education :=
  edus.foldl dictInsert []

/-- Python `str.lower()` as used on emails (`crud.py` line 18), for the
ASCII alphabet emails are drawn from. -/
def pyLower (s : String) : String :=
  String.mk (s.data.map fun c =>
    if 65 ≤ c.toNat ∧ c.toNat ≤ 90 then Char.ofNat (c.toNat + 32) else c)

/-- Modelled from the spec: `CRUD.create_person` calls
`self.get_person_by_email` (`crud.py` line 19) but no such method is defined
anywhere in the repository.  Per the spec the Identity Store is looked up by
canonical (lowercased) email. -/
def get_person_by_email (s : Store) (email : String) : Option Person :=
  s.persons.find? (fun p => p.email == email)

/-- Database id assignment for newly attached resume files: each new row
receives the next id from the sequence and its owning person id. -/
def assignRids (pid : Nat) (next : Nat) : List ResumeFile → List ResumeFile × Nat
  | [] => ([], next)
  | r :: rest =>
      let (rest', n) := assignRids pid (next + 1) rest
      ({ r with id := next, person_id := pid } :: rest', n)

namespace CRUD

/-- `CRUD.create_person` (`crud.py` lines 14-38).  Lowercases the email,
looks the person up by it; on a hit merges educations through the dedup
dict and appends the new resume files; otherwise inserts a new person row.
Returns the stored person, the education list the Python function returns,
and the newly attached resume files. -/
def create_person (s : Store) (person : Person) (educations : List Education)
    (resume_files : List ResumeFile) :
    Store × Person × List Education × List ResumeFile :=
  match get_person_by_email s (pyLower person.email) with
  | some existing =>
      let merged := dedupEducations (existing.educations ++ educations)
      let newRfs := (assignRids existing.id s.nextRid resume_files).1
      let updated := { existing with
        educations := merged
        resume_files := existing.resume_files ++ newRfs }
      ({ s with
          persons := s.persons.map (fun p => if p.id = existing.id then updated else p)
          nextRid := (assignRids existing.id s.nextRid resume_files).2 },
       updated, merged, newRfs)
  | none =>
      let newRfs := (assignRids s.nextPid s.nextRid resume_files).1
      let newPerson := { person with
        id := s.nextPid
        email := pyLower person.email
        educations := educations
        resume_files := newRfs }
      ({ persons := s.persons ++ [newPerson], nextPid := s.nextPid + 1,
         nextRid := (assignRids s.nextPid s.nextRid resume_files).2 },
       newPerson, educations, newRfs)

end CRUD

/-! ### Generic list lemmas used throughout -/

theorem find?_append_of_none {α : Type} (p : α → Bool) (l₁ l₂ : List α)
    (h : l₁.find? p = none) : (l₁ ++ l₂).find? p = l₂.find? p := by
  induction l₁ with
  | nil => rfl
  | cons a l ih =>
      rw [List.find?_cons] at h
      cases hpa : p a with
      | true => simp [hpa] at h
      | false =>
          rw [hpa] at h
          simp only [List.cons_append, List.find?_cons, hpa]
          exact ih h

theorem map_ite_of_ne (l : List Person) (pid : Nat) (q : Person)
    (h : ∀ p ∈ l, p.id ≠ pid) :
    l.map (fun p => if p.id = pid then q else p) = l := by
  induction l with
  | nil => rfl
  | cons a l ih =>
      have ha : a.id ≠ pid := h a (List.mem_cons_self a l)
      simp only [List.map_cons, if_neg ha]
      rw [ih (fun p hp => h p (List.mem_cons_of_mem a hp))]

theorem find?_eq_none_of_all {α : Type} (p : α → Bool) (l : List α)
    (h : ∀ x ∈ l, p x = false) : l.find? p = none := by
  induction l with
  | nil => rfl
  | cons a l ih =>
      rw [List.find?_cons, h a (List.mem_cons_self a l)]
      exact ih (fun x hx => h x (List.mem_cons_of_mem a hx))

theorem filter_eq_nil_of_all {α : Type} (p : α → Bool) (l : List α)
    (h : ∀ x ∈ l, p x = false) : l.filter p = [] := by
  induction l with
  | nil => rfl
  | cons a l ih =>
      rw [List.filter_cons, h a (List.mem_cons_self a l)]
      simp only [Bool.false_eq_true, if_false]
      exact ih (fun x hx => h x (List.mem_cons_of_mem a hx))

/-- The person row the create branch of `create_person` inserts. -/
def freshPerson (s : Store) (person : Person) (educations : List Education)
    (resume_files : List ResumeFile) : Person :=
  { person with
    id := s.nextPid
    email := pyLower person.email
    educations := educations
    resume_files := (assignRids s.nextPid s.nextRid resume_files).1 }

/-- The person row the merge branch of `create_person` stores in place of
the existing row. -/
def mergedPerson (s : Store) (existing : Person) (educations : List Education)
    (resume_files : List ResumeFile) : Person :=
  { existing with
    educations := dedupEducations (existing.educations ++ educations)
    resume_files := existing.resume_files ++ (assignRids existing.id s.nextRid resume_files).1 }

theorem create_person_of_none (s : Store) (person : Person) (ed : List Education)
    (rf : List ResumeFile) (h : get_person_by_email s (pyLower person.email) = none) :
    CRUD.create_person s person ed rf =
      ({ persons := s.persons ++ [freshPerson s person ed rf],
         nextPid := s.nextPid + 1,
         nextRid := (assignRids s.nextPid s.nextRid rf).2 },
       freshPerson s person ed rf, ed, (assignRids s.nextPid s.nextRid rf).1) := by
  simp only [CRUD.create_person, h, freshPerson]

theorem create_person_of_some (s : Store) (person : Person) (ed : List Education)
    (rf : List ResumeFile) (existing : Person)
    (h : get_person_by_email s (pyLower person.email) = some existing) :
    CRUD.create_person s person ed rf =
      ({ s with
          persons := s.persons.map
            (fun p => if p.id = existing.id then mergedPerson s existing ed rf else p),
          nextRid := (assignRids existing.id s.nextRid rf).2 },
       mergedPerson s existing ed rf,
       dedupEducations (existing.educations ++ ed),
       (assignRids existing.id s.nextRid rf).1) := by
  simp only [CRUD.create_person, h, mergedPerson]

/-- C1: reconciling two candidates whose emails agree after lowercasing
produces exactly one Person row; the second call merges into the Person
the first call created (same row id), and the stored email is canonical. -/
theorem create_person_merges_equal_emails (s : Store) (p1 p2 : Person)
    (ed1 ed2 : List Education) (rf1 rf2 : List ResumeFile)
    (hfresh : ∀ p ∈ s.persons, p.id < s.nextPid)
    (hnew : ∀ p ∈ s.persons, p.email ≠ pyLower p1.email)
    (heq : pyLower p2.email = pyLower p1.email) :
    ((CRUD.create_person (CRUD.create_person s p1 ed1 rf1).1 p2 ed2 rf2).1.persons.length
        = s.persons.length + 1) ∧
    (((CRUD.create_person (CRUD.create_person s p1 ed1 rf1).1 p2 ed2 rf2).1.persons.filter
        (fun p => p.email == pyLower p1.email)).length = 1) ∧
    ((CRUD.create_person (CRUD.create_person s p1 ed1 rf1).1 p2 ed2 rf2).2.1.id
        = (CRUD.create_person s p1 ed1 rf1).2.1.id) ∧
    ((CRUD.create_person (CRUD.create_person s p1 ed1 rf1).1 p2 ed2 rf2).2.1.email
        = pyLower p1.email) := by
  have hfind1 : get_person_by_email s (pyLower p1.email) = none := by
    apply find?_eq_none_of_all
    intro x hx
    exact beq_eq_false_iff_ne.mpr (hnew x hx)
  rw [create_person_of_none s p1 ed1 rf1 hfind1]
  dsimp only
  have hfind2 : get_person_by_email
      { persons := s.persons ++ [freshPerson s p1 ed1 rf1], nextPid := s.nextPid + 1,
        nextRid := (assignRids s.nextPid s.nextRid rf1).2 } (pyLower p2.email)
      = some (freshPerson s p1 ed1 rf1) := by
    unfold get_person_by_email at hfind1 ⊢
    rw [heq]
    exact (find?_append_of_none _ _ _ hfind1).trans (by simp [List.find?, freshPerson])
  rw [create_person_of_some _ p2 ed2 rf2 _ hfind2]
  dsimp only
  have hid : ∀ p ∈ s.persons, p.id ≠ (freshPerson s p1 ed1 rf1).id := by
    intro p hp
    have h1 := hfresh p hp
    simp only [freshPerson]
    omega
  rw [List.map_append, map_ite_of_ne _ _ _ hid]
  have hfil : List.filter (fun p => p.email == pyLower p1.email) s.persons = [] :=
    filter_eq_nil_of_all _ _ (fun x hx => beq_eq_false_iff_ne.mpr (hnew x hx))
  refine ⟨by simp, ?_, by simp [mergedPerson], by simp [mergedPerson, freshPerson]⟩
  simp [List.filter_append, hfil, mergedPerson, freshPerson]

/-- A concrete incoming candidate (mixed-case email). -/
def personA : Person := { full_name := "Alice", email := "Alice@X.com" }

/-- A second candidate whose email equals `personA`'s after lowercasing. -/
def personB : Person := { full_name := "A. Liddell", email := "alice@x.COM" }

/-- Witness for C1 at a concrete pair of candidates. -/
theorem create_person_merges_equal_emails_witness :
    ((CRUD.create_person (CRUD.create_person {} personA [] []).1 personB [] []).1.persons.length
        = ({} : Store).persons.length + 1) ∧
    (((CRUD.create_person (CRUD.create_person {} personA [] []).1 personB [] []).1.persons.filter
        (fun p => p.email == pyLower personA.email)).length = 1) ∧
    ((CRUD.create_person (CRUD.create_person {} personA [] []).1 personB [] []).2.1.id
        = (CRUD.create_person {} personA [] []).2.1.id) ∧
    ((CRUD.create_person (CRUD.create_person {} personA [] []).1 personB [] []).2.1.email
        = pyLower personA.email) :=
  create_person_merges_equal_emails {} personA personB [] [] [] []
    (by simp [Store.persons]) (by simp [Store.persons]) (by decide)

/-! ### The Python dict semantics of the education dedup -/

theorem eduKey_map_replace (acc : List Education) (e : Education) :
    ((acc.map fun x => if eduKey x = eduKey e then e else x).map eduKey) = acc.map eduKey := by
  induction acc with
  | nil => rfl
  | cons a l ih =>
      simp only [List.map_cons, ih]
      by_cases h : eduKey a = eduKey e
      · simp [h]
      · simp [h]

theorem foldl_dictInsert_keys_nodup (l : List Education) (acc : List Education)
    (h : (acc.map eduKey).Nodup) : (((l.foldl dictInsert acc)).map eduKey).Nodup := by
  induction l generalizing acc with
  | nil => exact h
  | cons e l ih =>
      rw [List.foldl_cons]
      apply ih
      unfold dictInsert
      by_cases hany : acc.any (fun x => eduKey x = eduKey e) = true
      · rw [if_pos hany, eduKey_map_replace]
        exact h
      · rw [if_neg hany, List.map_append]
        have hnot : eduKey e ∉ acc.map eduKey := by
          intro hmem
          apply hany
          rw [List.any_eq_true]
          obtain ⟨x, hx, hkx⟩ := List.mem_map.mp hmem
          exact ⟨x, hx, by simp [hkx]⟩
        simp [List.nodup_append, h, hnot]

/-- Every write through the dedup dict yields pairwise-distinct
`(institution, field, degree)` keys. -/
theorem dedupEducations_keys_nodup (l : List Education) :
    ((dedupEducations l).map eduKey).Nodup :=
  foldl_dictInsert_keys_nodup l [] (by simp)

theorem filter_key_map_replace_eq (acc : List Education) (e : Education) :
    ((acc.map fun x => if eduKey x = eduKey e then e else x).filter
        (fun x => eduKey x = eduKey e))
      = (acc.filter (fun x => eduKey x = eduKey e)).map (fun _ => e) := by
  induction acc with
  | nil => rfl
  | cons a l ih =>
      by_cases h : eduKey a = eduKey e
      · simp only [List.map_cons, if_pos h, List.filter_cons, ih, h]
        simp
      · simp only [List.map_cons, if_neg h, List.filter_cons, ih]
        simp [h]

theorem filter_key_map_replace_ne (acc : List Education) (e : Education)
    (k : String × String × String) (hk : k ≠ eduKey e) :
    ((acc.map fun x => if eduKey x = eduKey e then e else x).filter
        (fun x => eduKey x = k))
      = acc.filter (fun x => eduKey x = k) := by
  induction acc with
  | nil => rfl
  | cons a l ih =>
      by_cases h : eduKey a = eduKey e
      · have h1 : ¬ (eduKey e = k) := fun hh => hk hh.symm
        have h2 : ¬ (eduKey a = k) := by rw [h]; exact h1
        simp only [List.map_cons, if_pos h, List.filter_cons, ih]
        simp [h1, h2]
      · simp only [List.map_cons, if_neg h, List.filter_cons, ih]

/-- The dict comprehension retains, for every key, exactly the LAST entry of
the input list carrying that key (Python dict: later writes overwrite). -/
theorem dedupEducations_filter_key (l : List Education) (k : String × String × String) :
    (dedupEducations l).filter (fun e => eduKey e = k)
      = ((l.filter (fun e => eduKey e = k)).getLast?).toList := by
  induction l using List.reverseRecOn with
  | nil => rfl
  | append_singleton l e ih =>
      have hstep : dedupEducations (l ++ [e]) = dictInsert (dedupEducations l) e := by
        rw [dedupEducations, List.foldl_append]
        rfl
      rw [hstep, List.filter_append]
      by_cases hk : k = eduKey e
      · subst hk
        have hfe : List.filter (fun x => eduKey x = eduKey e) [e] = [e] := by simp
        rw [hfe, List.getLast?_concat]
        unfold dictInsert
        by_cases hany : (dedupEducations l).any (fun x => eduKey x = eduKey e) = true
        · rw [if_pos hany, filter_key_map_replace_eq]
          rw [List.any_eq_true] at hany
          obtain ⟨x, hx, hkx⟩ := hany
          rw [ih]
          cases hlast : (l.filter (fun e_1 => eduKey e_1 = eduKey e)).getLast? with
          | none =>
              exfalso
              have hmem : x ∈ (dedupEducations l).filter (fun x => eduKey x = eduKey e) :=
                List.mem_filter.mpr ⟨hx, hkx⟩
              rw [ih, hlast] at hmem
              simp at hmem
          | some y => rfl
        · rw [if_neg hany, List.filter_append]
          have hnil : (dedupEducations l).filter (fun x => eduKey x = eduKey e) = [] := by
            apply filter_eq_nil_of_all
            intro x hx
            by_contra hc
            apply hany
            rw [List.any_eq_true]
            exact ⟨x, hx, by simpa using hc⟩
          rw [hnil]
          simp
      · have hke : ¬ (eduKey e = k) := fun hh => hk hh.symm
        have hfe : List.filter (fun x => eduKey x = k) [e] = [] := by simp [hke]
        rw [hfe, List.append_nil]
        unfold dictInsert
        by_cases hany : (dedupEducations l).any (fun x => eduKey x = eduKey e) = true
        · rw [if_pos hany, filter_key_map_replace_ne _ _ _ hk]
          exact ih
        · rw [if_neg hany, List.filter_append, hfe, List.append_nil]
          exact ih

theorem getLast?_append_of_ne_nil {α : Type} (l₁ l₂ : List α) (h : l₂ ≠ []) :
    (l₁ ++ l₂).getLast? = l₂.getLast? := by
  rw [List.getLast?_append]
  cases hl : l₂.getLast? with
  | none => exact absurd (List.getLast?_eq_none_iff.mp hl) h
  | some y => rfl

/-- `CRUD.update_education_by_person_id` (`crud.py` lines 120-139): dedups
the supplied list through the dict, clears the person's existing educations,
and stores the new entries with the owning person id. -/
def CRUD.update_education_by_person_id (s : Store) (person_id : Nat)
    (educations : List Education) : Except String (Store × Person) :=
  match s.persons.find? (fun p => p.id == person_id) with
  | none => Except.error "Person not found"
  | some person =>
      let edus := (dedupEducations educations).map (fun e => { e with person_id := person_id })
      let updated := { person with educations := edus }
      Except.ok
        ({ s with persons := s.persons.map (fun p => if p.id = person_id then updated else p) },
         updated)

theorem eduKey_map_setPid (l : List Education) (pid : Nat) :
    ((l.map (fun e => { e with person_id := pid })).map eduKey) = l.map eduKey := by
  induction l with
  | nil => rfl
  | cons a l ih => simp [eduKey, ih]

theorem update_education_ok (s : Store) (pid : Nat) (L : List Education)
    (st : Store) (p : Person)
    (h : CRUD.update_education_by_person_id s pid L = Except.ok (st, p)) :
    p.educations = (dedupEducations L).map (fun e => { e with person_id := pid }) ∧
    p.id = pid ∧
    st.persons = s.persons.map (fun q => if q.id = pid then p else q) := by
  unfold CRUD.update_education_by_person_id at h
  cases hf : s.persons.find? (fun q => q.id == pid) with
  | none => rw [hf] at h; cases h
  | some person =>
      rw [hf] at h
      simp only [Except.ok.injEq, Prod.mk.injEq] at h
      obtain ⟨hst, hp⟩ := h
      have hid : person.id = pid := by
        have := List.find?_some hf
        simpa using this
      refine ⟨?_, ?_, ?_⟩
      · rw [← hp]
      · rw [← hp]; exact hid
      · rw [← hst, ← hp, hid]

/-! ### Concrete fixtures -/

/-- The education already stored for the existing candidate. -/
def eduOld : Education :=
  { institution := "U1", degree := "BSc", field := "CS",
    start_date := some "2000-09", end_date := some "2004-06", person_id := 1 }

/-- A newly supplied education colliding with `eduOld` on
(institution, field, degree) but differing in dates. -/
def eduNew : Education :=
  { institution := "U1", degree := "BSc", field := "CS",
    start_date := some "2010-09", end_date := some "2014-06" }

/-- The stored Person row owning `eduOld`. -/
def aliceRow : Person :=
  { id := 1, full_name := "Alice", email := "alice@x.com", educations := [eduOld] }

/-- A store already containing `aliceRow`. -/
def storeWithAlice : Store := { persons := [aliceRow], nextPid := 2, nextRid := 1 }

/-- An incoming candidate whose email matches `aliceRow` after lowercasing. -/
def personC : Person := { full_name := "Alice", email := "Alice@X.com" }

/-- C2 counterexample: on a key collision in the merge branch the stored
entry is dropped and the newly supplied entry is retained, although the
existing person had educations. -/
theorem education_collision_drops_stored_entry :
    eduKey eduOld = eduKey eduNew ∧
    aliceRow.educations ≠ [] ∧
    eduOld ∉ (CRUD.create_person storeWithAlice personC [eduNew] []).2.1.educations ∧
    eduNew ∈ (CRUD.create_person storeWithAlice personC [eduNew] []).2.1.educations := by
  decide

/-- C2 (amended): in the merge branch, for every key the newly supplied list
carries, the merged education list retains exactly the LAST newly supplied
entry with that key — the new record wins over the stored one
(Python dict comprehension: later writes overwrite). -/
theorem create_person_merge_new_entry_wins (s : Store) (person : Person)
    (ed : List Education) (rf : List ResumeFile) (existing : Person)
    (hex : get_person_by_email s (pyLower person.email) = some existing)
    (k : String × String × String)
    (hk : ed.filter (fun e => eduKey e = k) ≠ []) :
    (CRUD.create_person s person ed rf).2.2.1.filter (fun e => eduKey e = k)
      = ((ed.filter (fun e => eduKey e = k)).getLast?).toList := by
  rw [create_person_of_some _ _ _ _ _ hex]
  dsimp only
  rw [dedupEducations_filter_key, List.filter_append,
      getLast?_append_of_ne_nil _ _ hk]

/-- Witness for the amended C2 at the concrete collision. -/
theorem create_person_merge_new_entry_wins_witness :
    (CRUD.create_person storeWithAlice personC [eduNew] []).2.2.1.filter
        (fun e => eduKey e = eduKey eduNew)
      = (([eduNew].filter (fun e => eduKey e = eduKey eduNew)).getLast?).toList :=
  create_person_merge_new_entry_wins storeWithAlice personC [eduNew] [] aliceRow
    (by decide) (eduKey eduNew) (by decide)

/-- Two supplied educations sharing the dedup key but not equal. -/
def dupEdu1 : Education :=
  { institution := "U2", degree := "MSc", field := "AI",
    start_date := some "2015-09", end_date := none }

/-- Second copy of the key of `dupEdu1` with different dates. -/
def dupEdu2 : Education :=
  { institution := "U2", degree := "MSc", field := "AI",
    start_date := some "2018-09", end_date := none }

/-- C4 counterexample: the create-new-Person branch of `create_person`
stores the supplied education list without any dedup, so the resulting
education set can contain two entries sharing (institution, field, degree). -/
theorem create_branch_skips_education_dedup :
    eduKey dupEdu1 = eduKey dupEdu2 ∧ dupEdu1 ≠ dupEdu2 ∧
    (CRUD.create_person {} personA [dupEdu1, dupEdu2] []).2.1.educations
      = [dupEdu1, dupEdu2] ∧
    ¬ (((CRUD.create_person {} personA [dupEdu1, dupEdu2] []).2.1.educations.map
        eduKey).Nodup) := by
  decide

/-- C4 (amended): the merge branch of `create_person` and
`update_education_by_person_id` both produce education sets with
pairwise-distinct (institution, field, degree) keys, but the
create-new-Person branch stores the supplied list unchanged, with no dedup. -/
theorem education_dedup_on_merge_and_update_paths (s : Store) (person : Person)
    (ed : List Education) (rf : List ResumeFile) (existing : Person)
    (hex : get_person_by_email s (pyLower person.email) = some existing)
    (s2 : Store) (pid : Nat) (L : List Education) (st : Store) (p : Person)
    (hup : CRUD.update_education_by_person_id s2 pid L = Except.ok (st, p))
    (s3 : Store) (q : Person) (ed3 : List Education) (rf3 : List ResumeFile)
    (hnone : get_person_by_email s3 (pyLower q.email) = none) :
    (((CRUD.create_person s person ed rf).2.1.educations).map eduKey).Nodup ∧
    ((p.educations.map eduKey).Nodup) ∧
    (CRUD.create_person s3 q ed3 rf3).2.1.educations = ed3 := by
  refine ⟨?_, ?_, ?_⟩
  · rw [create_person_of_some _ _ _ _ _ hex]
    dsimp only [mergedPerson]
    exact dedupEducations_keys_nodup _
  · rw [(update_education_ok _ _ _ _ _ hup).1, eduKey_map_setPid]
    exact dedupEducations_keys_nodup _
  · rw [create_person_of_none _ _ _ _ hnone]
    simp [freshPerson]

/-- The education row `update_education_by_person_id` keeps from the
duplicate pair, with the owner id written in. -/
def dupEdu2Owned : Education := { dupEdu2 with person_id := 1 }

/-- `aliceRow` after `update_education_by_person_id 1 [dupEdu1, dupEdu2]`. -/
def aliceRowUpdated : Person := { aliceRow with educations := [dupEdu2Owned] }

/-- `storeWithAlice` after that update. -/
def storeWithAliceUpdated : Store := { storeWithAlice with persons := [aliceRowUpdated] }

/-- Witness for the amended C4 at concrete stores. -/
theorem education_dedup_on_merge_and_update_paths_witness :
    (((CRUD.create_person storeWithAlice personC [eduNew] []).2.1.educations).map
        eduKey).Nodup ∧
    ((aliceRowUpdated.educations.map eduKey).Nodup) ∧
    (CRUD.create_person {} personA [eduNew] []).2.1.educations = [eduNew] :=
  education_dedup_on_merge_and_update_paths storeWithAlice personC [eduNew] [] aliceRow
    (by decide) storeWithAlice 1 [dupEdu1, dupEdu2] storeWithAliceUpdated aliceRowUpdated
    (by rfl) {} personA [eduNew] [] (by decide)

/-- C10: `update_education_by_person_id` replaces the person's entire
education set with the deduplicated supplied list alone — every previously
stored education row is removed and the result does not depend on the prior
educations (the right-hand side mentions only the supplied list and the id). -/
theorem update_education_replaces_educations (s : Store) (pid : Nat)
    (L : List Education) (st : Store) (p : Person)
    (h : CRUD.update_education_by_person_id s pid L = Except.ok (st, p)) :
    p.educations = (dedupEducations L).map (fun e => { e with person_id := pid }) ∧
    ∀ q ∈ st.persons, q.id = pid →
      q.educations = (dedupEducations L).map (fun e => { e with person_id := pid }) := by
  obtain ⟨hed, hid, hpersons⟩ := update_education_ok s pid L st p h
  refine ⟨hed, ?_⟩
  intro q hq hqid
  rw [hpersons] at hq
  obtain ⟨r, _, hr⟩ := List.mem_map.mp hq
  by_cases hcase : r.id = pid
  · rw [if_pos hcase] at hr
    rw [← hr]
    exact hed
  · rw [if_neg hcase] at hr
    exact absurd (hr ▸ hqid) hcase

/-- Witness for C10: the prior education `eduOld` is gone and the stored set
is exactly the deduplicated new list. -/
theorem update_education_replaces_educations_witness :
    (aliceRowUpdated.educations
        = (dedupEducations [dupEdu1, dupEdu2]).map (fun e => { e with person_id := 1 })) ∧
    ∀ q ∈ storeWithAliceUpdated.persons, q.id = 1 →
      q.educations = (dedupEducations [dupEdu1, dupEdu2]).map
        (fun e => { e with person_id := 1 }) :=
  update_education_replaces_educations storeWithAlice 1 [dupEdu1, dupEdu2]
    storeWithAliceUpdated aliceRowUpdated (by rfl)

/-! ### Vector index, embedder and endpoint pipelines -/

/-- Result of one endpoint invocation: normal return, Python AttributeError,
FastAPI HTTPException, or a propagated exception. -/
inductive PyOutcome (α : Type) where
  | ok : α → PyOutcome α
  | attributeError : String → PyOutcome α
  | httpException : Nat → String → PyOutcome α
  | raised : String → PyOutcome α
deriving Repr, DecidableEq

def PyOutcome.isOk {α : Type} : PyOutcome α → Bool
  | .ok _ => true
  | _ => false

/-- Keep the failure, replace a normal return's value. -/
def PyOutcome.replaceOk {α β : Type} (o : PyOutcome α) (b : β) : PyOutcome β :=
  match o with
  | .ok _ => .ok b
  | .attributeError e => .attributeError e
  | .httpException c d => .httpException c d
  | .raised e => .raised e

/-- One qdrant point (`embedder.py` lines 93-101): id is the resume id and
the payload carries skills, years_of_experience and person_id. The stored
vector lives with the external embedding provider and is abstracted away;
ranking against a query is abstracted by a score oracle. -/
structure EmbPoint where
  id : Nat
  skills : List String
  years_of_experience : Int
  person_id : Nat
deriving Repr, DecidableEq

/-- Dual-store system state: relational store plus the qdrant collection. -/
structure SysState where
  store : Store := {}
  index : List EmbPoint := []
deriving Repr, DecidableEq

/-- The Python dict passed as `filter` to `search_with_filter`; a `none`
field models an absent key (`dict.get` then returns the caller's default). -/
structure FilterDict where
  skills : Option (List String) := none
  years_of_experience : Option Int := none
  yoe : Option Int := none
deriving Repr, DecidableEq

namespace Embedder

/-- The payload dict the endpoints build (api.py lines 96-101). -/
structure Payload where
  skills : List String := []
  years_of_experience : Int := 0
  skills_description : String := ""
  work_description : String := ""
deriving Repr, DecidableEq

/-- qdrant upsert of one point: overwrite the point with the same id if any,
otherwise insert. -/
def upsertPoint (idx : List EmbPoint) (pt : EmbPoint) : List EmbPoint :=
  if idx.any (fun q => q.id = pt.id) then
    idx.map (fun q => if q.id = pt.id then pt else q)
  else idx ++ [pt]

/-- `Embedder.embed_cv` (`embedder.py` lines 71-105): rejects falsy ids,
embeds the synopsis through the external provider — `embedServiceOk = false`
models the provider call raising (line 49) — and upserts one point keyed by
the resume id. -/
def embed_cv (idx : List EmbPoint) (person_id resume_id : Nat) (payload : Payload)
    (embedServiceOk : Bool) : Except String (List EmbPoint) :=
  if person_id = 0 ∨ resume_id = 0 then
    Except.error "Both person_id and resume_id must be provided."
  else if embedServiceOk = false then
    Except.error "Error embedding text"
  else
    Except.ok (upsertPoint idx
      { id := resume_id, skills := payload.skills,
        years_of_experience := payload.years_of_experience, person_id := person_id })

/-- Insert one point into a descending-score list, after earlier points of
equal score (qdrant returns hits ordered by score). -/
def insertRanked (score : EmbPoint → Int) (p : EmbPoint) :
    List EmbPoint → List EmbPoint
  | [] => [p]
  | q :: rest =>
      if score q < score p then p :: q :: rest else q :: insertRanked score p rest

/-- Order points by descending score, stably. -/
def rankPoints (score : EmbPoint → Int) (l : List EmbPoint) : List EmbPoint :=
  l.foldl (fun acc p => insertRanked score p acc) []

/-- `Embedder.search_with_filter` (`embedder.py` lines 127-164): reads
`skills` and `yoe` from the filter dict with defaults `[]` and `0`
(`filter.get` never yields None for the in-repo callers, so the
fall-through to the unfiltered search on line 142 is dead); qdrant evaluates
the `must` range clause `years_of_experience >= yoe` as a hard filter, while
the `should` skill clauses only contribute to the score (folded into the
score oracle) and never exclude a hit; returns up to `limit` hits ordered by
descending score. -/
def search_with_filter (idx : List EmbPoint) (score : EmbPoint → Int)
    (filter : FilterDict) (limit : Nat) : List EmbPoint :=
  let yoe := filter.yoe.getD 0
  (rankPoints score (idx.filter (fun p => yoe ≤ p.years_of_experience))).take limit

end Embedder

/-- The methods the class body of `CRUD` defines (`crud.py` lines 14-205),
in source order; Python resolves `self.<name>` / `crud_module.<name>`
against this table and raises AttributeError when the name is absent. -/
def crudMethods : List String :=
  ["create_person", "add_education", "add_resume_file", "get_person",
   "get_educations_by_person_id", "get_resume_files_by_person_id",
   "update_person", "update_education", "update_education_by_person_id",
   "update_resume_file_by_id", "update_resume_file_status",
   "delete_person", "delete_education", "delete_resume_file"]

/-- `CRUD.create_person` as Python actually executes it: line 18 lowercases
the in-memory email (no store write), then line 19 resolves
`self.get_person_by_email`; the name is absent from `crudMethods`, so an
AttributeError is raised before any store access.  Were the method present,
execution would continue as `CRUD.create_person`. -/
def create_person_raw (s : Store) (person : Person) (educations : List Education)
    (resume_files : List ResumeFile) :
    PyOutcome (Person × List Education × List ResumeFile) × Store :=
  let person2 := { person with email := pyLower person.email }
  if "get_person_by_email" ∈ crudMethods then
    (PyOutcome.ok (CRUD.create_person s person2 educations resume_files).2,
     (CRUD.create_person s person2 educations resume_files).1)
  else (PyOutcome.attributeError "get_person_by_email", s)

/-- `CRUD.get_person` (`crud.py` lines 68-72): primary-key lookup. -/
def CRUD.get_person (s : Store) (person_id : Nat) : Option Person :=
  s.persons.find? (fun p => p.id == person_id)

/-- All rows of the `resume_file` table. -/
def allResumeFiles (s : Store) : List ResumeFile :=
  s.persons.foldr (fun p acc => p.resume_files ++ acc) []

/-- `db.get(ResumeFile, id)`: primary-key lookup in the resume_file table. -/
def findResumeFile (s : Store) (rid : Nat) : Option ResumeFile :=
  (allResumeFiles s).find? (fun r => r.id == rid)

/-- Modelled from the spec: the API calls `crud_module.get_resume_file`
(api.py lines 285, 386, 439) but `CRUD` defines no such method; per the
spec the Identity Store supports get-by-id for ResumeFile rows. -/
def get_resume_file (s : Store) (rid : Nat) : Option ResumeFile :=
  findResumeFile s rid

/-- `CRUD.update_resume_file_status` (`crud.py` lines 156-167). -/
def CRUD.update_resume_file_status (s : Store) (rid : Nat) (status : String) :
    Except String Store :=
  match findResumeFile s rid with
  | none => Except.error "Resume file not found"
  | some _ => Except.ok { s with persons := s.persons.map (fun p =>
      { p with resume_files := p.resume_files.map (fun r =>
          if r.id = rid then { r with status := status } else r) }) }

/-- `CRUD.update_resume_file_by_id` (`crud.py` lines 141-154), specialized
to the update dict the update-cv endpoint passes (api.py lines 292-299):
filename, storage_url and status. -/
def CRUD.update_resume_file_by_id (s : Store) (rid : Nat)
    (filename storage_url status : String) : Except String Store :=
  match findResumeFile s rid with
  | none => Except.error "Resume file not found"
  | some _ => Except.ok { s with persons := s.persons.map (fun p =>
      { p with resume_files := p.resume_files.map (fun r =>
          if r.id = rid then
            { r with filename := filename, storage_url := storage_url, status := status }
          else r) }) }

/-- `CRUD.update_person` (`crud.py` lines 90-103), specialized to the update
dict the update-cv endpoint passes (api.py lines 314-322). -/
def CRUD.update_person (s : Store) (pid : Nat)
    (full_name email phone summary : String) : Except String Store :=
  match CRUD.get_person s pid with
  | none => Except.error "Person not found"
  | some _ => Except.ok { s with persons := s.persons.map (fun p =>
      if p.id = pid then
        { p with full_name := full_name, email := email, phone := phone, summary := summary }
      else p) }

/-- `CRUD.delete_person` (`crud.py` lines 169-183): deletes the person's
education and resume-file rows and the person row itself; nothing else. -/
def CRUD.delete_person (s : Store) (pid : Nat) : Except String Store :=
  match CRUD.get_person s pid with
  | none => Except.error "Person not found"
  | some _ => Except.ok { s with persons := s.persons.filter (fun p => ¬ (p.id = pid)) }

/-- `CRUD.delete_resume_file` (`crud.py` lines 196-205). -/
def CRUD.delete_resume_file (s : Store) (rid : Nat) : Except String Store :=
  match findResumeFile s rid with
  | none => Except.error "Resume file not found"
  | some _ => Except.ok { s with persons := s.persons.map (fun p =>
      { p with resume_files := p.resume_files.filter (fun r => ¬ (r.id = rid)) }) }

/-- Python `str.endswith` on the underlying characters (used instead of
`String.endsWith` so that concrete endpoint runs evaluate). -/
def pyEndsWith (s suffix : String) : Bool :=
  suffix.data.isSuffixOf s.data

/-- The dict `extract_and_transform` returns (`extractor.py`), as the API
consumes it: a `none` field models an absent key (the endpoints read each
with `.get` and a default); `education` holds the Education rows the API
constructs from the education sub-dicts with their `.get` defaults
(api.py lines 70-77). -/
structure Extracted where
  name : Option String := none
  email : Option String := none
  phone : Option String := none
  summary : Option String := none
  education : List Education := []
  skills : List String := []
  years_of_experience : Int := 0
  skills_description : String := ""
  work_description : String := ""
deriving Repr, DecidableEq

/-- What an ingestor returns for one document (`ingestor.py`). -/
structure Ingested where
  file_path : String := ""
  raw_text : String := ""
deriving Repr, DecidableEq

/-- The payload dict the upload endpoints build (api.py lines 96-101). -/
def payloadOf (ex : Extracted) : Embedder.Payload :=
  { skills := ex.skills, years_of_experience := ex.years_of_experience,
    skills_description := ex.skills_description, work_description := ex.work_description }

/-- The Person object the upload endpoints construct (api.py lines 83-88). -/
def personOf (ex : Extracted) : Person :=
  { full_name := ex.name.getD "Unknown", email := ex.email.getD "",
    phone := ex.phone.getD "", summary := ex.summary.getD "" }

/-- The shared tail of the three upload endpoints (api.py lines 89-109,
159-177, 228-245): create/merge the person together with the new QUEUED
resume row, embed the synopsis, then mark the resume SUCCESS.  An embedding
failure propagates as an exception with no further status write.  Uses the
spec-modelled email lookup inside `create_person`. -/
def process_resume (st : SysState) (ex : Extracted) (rfNew : ResumeFile)
    (embedServiceOk : Bool) : PyOutcome Unit × SysState :=
  let r := CRUD.create_person st.store (personOf ex) ex.education [rfNew]
  match r.2.2.2 with
  | [] => (PyOutcome.raised "IndexError: list index out of range", { st with store := r.1 })
  | rf :: _ =>
    match Embedder.embed_cv st.index r.2.1.id rf.id (payloadOf ex) embedServiceOk with
    | Except.error e => (PyOutcome.raised e, { st with store := r.1 })
    | Except.ok idx2 =>
      match CRUD.update_resume_file_status r.1 rf.id "SUCCESS" with
      | Except.error e => (PyOutcome.raised e, { store := r.1, index := idx2 })
      | Except.ok store2 => (PyOutcome.ok (), { store := store2, index := idx2 })

/-- `/upload-cv` (api.py lines 42-116).  The temp-file write and PDF text
extraction are external: `ingested` is the ingestor's result (`none` is the
falsy failure of line 64) and `exr` the extractor call, which raises on
failure. -/
def upload_cv_run (st : SysState) (filename : String) (ingested : Option Ingested)
    (exr : Except String Extracted) (embedServiceOk : Bool) :
    PyOutcome String × SysState :=
  if ¬ pyEndsWith filename ".pdf" then
    (PyOutcome.httpException 400 "Only PDF files are allowed", st)
  else
    match ingested with
    | none => (PyOutcome.httpException 400 "Failed to ingest the file", st)
    | some ing =>
      match exr with
      | Except.error e => (PyOutcome.raised e, st)
      | Except.ok ex =>
        let rfNew : ResumeFile :=
          { filename := filename, storage_url := "file://" ++ ing.file_path,
            status := "QUEUED" }
        let r := process_resume st ex rfNew embedServiceOk
        (r.1.replaceOk "File uploaded successfully", r.2)

/-- `/delete-person/{person_id}` (api.py lines 398-423): person lookup, 404
if absent, then `CRUD.delete_person`; the vector index is never touched. -/
def delete_person_run (st : SysState) (pid : Nat) : PyOutcome String × SysState :=
  match CRUD.get_person st.store pid with
  | none => (PyOutcome.httpException 404 "Person not found", st)
  | some _ =>
    match CRUD.delete_person st.store pid with
    | Except.error e => (PyOutcome.raised e, st)
    | Except.ok s2 => (PyOutcome.ok "Person deleted successfully", { st with store := s2 })

/-- `CV_SearchRequest` (`backend/schema.py`): query, limit defaulting to 5,
optional skills, years_of_experience defaulting to 0. -/
structure CVSearchRequest where
  query : String := ""
  limit : Nat := 5
  skills : Option (List String) := none
  years_of_experience : Option Int := some 0
deriving Repr, DecidableEq

/-- The filter dict `/search-cv` builds (api.py lines 366-369): the skills
and the experience threshold are stored under the keys `skills` and
`years_of_experience`; no `yoe` key is ever written. -/
def searchFilterOf (payload : CVSearchRequest) : FilterDict :=
  { skills := some (payload.skills.getD []),
    years_of_experience := some (payload.years_of_experience.getD 0) }

/-- `/search-cv` (api.py lines 348-396).  An empty query 400s; an empty
result list returns 200 with no CRUD access; with at least one hit the
response comprehension resolves `crud_module.get_resume_file`, which is
absent from `crudMethods`, raising AttributeError.  Normal returns carry
the (person_id, resume_id) pairs of the hits. -/
def search_cv_run (st : SysState) (score : EmbPoint → Int)
    (payload : CVSearchRequest) : PyOutcome (List (Nat × Nat)) × SysState :=
  if payload.query = "" then
    (PyOutcome.httpException 400 "Query cannot be empty", st)
  else
    let results := Embedder.search_with_filter st.index score (searchFilterOf payload)
      payload.limit
    if results.isEmpty then (PyOutcome.ok [], st)
    else if "get_resume_file" ∈ crudMethods then
      (PyOutcome.ok (results.map (fun pt => (pt.person_id, pt.id))), st)
    else (PyOutcome.attributeError "get_resume_file", st)

/-- `/update-cv/{resume_id}` (api.py lines 254-346), with the missing
`crud_module.get_resume_file` spec-modelled as get-by-id.  The temp-file
write and the extraction precede the lookup but touch neither store; the
SUCCESS-status gate (line 289) precedes every store mutation. -/
def update_cv_run (st : SysState) (resume_id : Nat) (filename : String)
    (ingested : Option Ingested) (exr : Except String Extracted)
    (embedServiceOk : Bool) : PyOutcome String × SysState :=
  if ¬ pyEndsWith filename ".pdf" then
    (PyOutcome.httpException 400 "Only PDF files are allowed", st)
  else
    match ingested with
    | none => (PyOutcome.httpException 400 "Failed to ingest the file", st)
    | some ing =>
      match exr with
      | Except.error e => (PyOutcome.raised e, st)
      | Except.ok ex =>
        match get_resume_file st.store resume_id with
        | none => (PyOutcome.httpException 404 "Resume file not found", st)
        | some rf =>
          if rf.status ≠ "SUCCESS" then
            (PyOutcome.httpException 400 "Resume file is not in a valid state for update", st)
          else
            match CRUD.update_resume_file_by_id st.store rf.id filename
                ("file://" ++ ing.file_path) "QUEUED" with
            | Except.error e => (PyOutcome.raised e, st)
            | Except.ok store1 =>
              match CRUD.get_person store1 rf.person_id with
              | none => (PyOutcome.httpException 404 "Person not found", { st with store := store1 })
              | some person =>
                match CRUD.update_person store1 person.id (ex.name.getD person.full_name)
                    (ex.email.getD person.email) (ex.phone.getD person.phone)
                    (ex.summary.getD person.summary) with
                | Except.error e => (PyOutcome.raised e, { st with store := store1 })
                | Except.ok store2 =>
                  match CRUD.update_education_by_person_id store2 person.id ex.education with
                  | Except.error e => (PyOutcome.raised e, { st with store := store2 })
                  | Except.ok (store3, _) =>
                    match Embedder.embed_cv st.index person.id rf.id (payloadOf ex)
                        embedServiceOk with
                    | Except.error e => (PyOutcome.raised e, { st with store := store3 })
                    | Except.ok idx2 =>
                      match CRUD.update_resume_file_status store3 rf.id "SUCCESS" with
                      | Except.error e => (PyOutcome.raised e, { store := store3, index := idx2 })
                      | Except.ok store4 =>
                          (PyOutcome.ok "CV updated successfully",
                           { store := store4, index := idx2 })

/-- `/update-cv/{resume_id}` as Python actually executes it: after the
prelude, line 285 resolves `crud_module.get_resume_file`, a name `CRUD`
does not define; were it present, execution would continue as
`update_cv_run`. -/
def update_cv_raw (st : SysState) (resume_id : Nat) (filename : String)
    (ingested : Option Ingested) (exr : Except String Extracted)
    (embedServiceOk : Bool) : PyOutcome String × SysState :=
  if ¬ pyEndsWith filename ".pdf" then
    (PyOutcome.httpException 400 "Only PDF files are allowed", st)
  else
    match ingested with
    | none => (PyOutcome.httpException 400 "Failed to ingest the file", st)
    | some ing =>
      match exr with
      | Except.error e => (PyOutcome.raised e, st)
      | Except.ok ex =>
        if "get_resume_file" ∈ crudMethods then
          update_cv_run st resume_id filename (some ing) (Except.ok ex) embedServiceOk
        else (PyOutcome.attributeError "get_resume_file", st)

/-- `/delete-resume-file/{resume_file_id}` (api.py lines 425-450): the first
statement resolves `crud_module.get_resume_file`, which is absent; were it
present, the endpoint would 404 on unknown ids and otherwise delete the row. -/
def delete_resume_file_run (st : SysState) (rid : Nat) : PyOutcome String × SysState :=
  if "get_resume_file" ∈ crudMethods then
    match get_resume_file st.store rid with
    | none => (PyOutcome.httpException 404 "Resume file not found", st)
    | some _ =>
      match CRUD.delete_resume_file st.store rid with
      | Except.error e => (PyOutcome.raised e, st)
      | Except.ok s2 => (PyOutcome.ok "Resume file deleted successfully", { st with store := s2 })
  else (PyOutcome.attributeError "get_resume_file", st)

/-- What `CV_GDrive_Ingestor.ingest_folder` (`ingestor.py` lines 139-174)
produces from the downloaded pdf files: per file the PDF text extraction is
tried; a failure is caught, reported through a printed error line, and the
loop continues with the next file.  `reported` collects the printed lines. -/
structure FolderIngested where
  raw_texts : List String := []
  reported : List String := []
deriving Repr, DecidableEq

def ingest_folder_run (files : List String)
    (pdfText : String → Except String String) : FolderIngested :=
  files.foldl (fun acc f =>
    match pdfText f with
    | Except.ok t => { acc with raw_texts := acc.raw_texts ++ [t] }
    | Except.error e =>
        { acc with reported := acc.reported ++ ["Error processing file " ++ f ++ ": " ++ e] })
    {}

/-- The per-document loop of `/upload-cv-by-google-drive-folder-url`
(api.py lines 204-245): for each raw text the extractor runs unprotected —
an extractor exception propagates and aborts the remaining documents; a
document whose extraction yields no name is skipped silently (line 207);
otherwise the document is processed like a single upload, whose failures
also propagate. -/
def folder_upload_loop (st : SysState) (docs : List (String × String))
    (extract : String → Except String Extracted) (folderUrl : String)
    (embedServiceOk : Bool) : PyOutcome String × SysState :=
  match docs with
  | [] => (PyOutcome.ok "Folder uploaded successfully", st)
  | (raw_text, file_path) :: rest =>
    match extract raw_text with
    | Except.error e => (PyOutcome.raised e, st)
    | Except.ok ex =>
      if ex.name.isNone then folder_upload_loop st rest extract folderUrl embedServiceOk
      else
        let rfNew : ResumeFile :=
          { filename := file_path, storage_url := folderUrl ++ "/" ++ file_path,
            status := "QUEUED" }
        let r := process_resume st ex rfNew embedServiceOk
        match r.1 with
        | PyOutcome.ok _ => folder_upload_loop r.2 rest extract folderUrl embedServiceOk
        | o => (o.replaceOk "", r.2)

/-! ### C5, C6, C7: concrete pipeline runs -/

/-- The structured data extracted from a concrete resume. -/
def exAlice : Extracted :=
  { name := some "Alice", email := some "Alice@X.com", phone := some "123",
    summary := some "dev", education := [eduNew], skills := ["python"],
    years_of_experience := 3, skills_description := "python",
    work_description := "3 years at U1" }

/-- C5 fails on the code: when the embedding provider raises after the
QUEUED ResumeFile row was persisted, the upload endpoint propagates the
exception and no ERROR transition happens — the row stays QUEUED; on
success the same pipeline does end at SUCCESS. -/
theorem upload_embed_failure_leaves_queued :
    (upload_cv_run {} "cv.pdf" (some { file_path := "tmp/cv.pdf", raw_text := "raw" })
        (Except.ok exAlice) false).1 = PyOutcome.raised "Error embedding text" ∧
    ((allResumeFiles (upload_cv_run {} "cv.pdf"
        (some { file_path := "tmp/cv.pdf", raw_text := "raw" })
        (Except.ok exAlice) false).2.store).map (fun r => r.status)) = ["QUEUED"] ∧
    (upload_cv_run {} "cv.pdf" (some { file_path := "tmp/cv.pdf", raw_text := "raw" })
        (Except.ok exAlice) true).1 = PyOutcome.ok "File uploaded successfully" ∧
    ((allResumeFiles (upload_cv_run {} "cv.pdf"
        (some { file_path := "tmp/cv.pdf", raw_text := "raw" })
        (Except.ok exAlice) true).2.store).map (fun r => r.status)) = ["SUCCESS"] := by
  decide

/-- The embedding record of Alice's resume (point id = resume id 10). -/
def pt10 : EmbPoint :=
  { id := 10, skills := ["python"], years_of_experience := 3, person_id := 1 }

/-- Alice's processed resume row. -/
def resume10 : ResumeFile :=
  { id := 10, person_id := 1, filename := "cv.pdf", status := "SUCCESS" }

/-- Alice's person row owning `resume10`. -/
def personRow1 : Person :=
  { id := 1, full_name := "Alice", email := "alice@x.com", resume_files := [resume10] }

/-- A consistent dual-store state: Alice with one SUCCESS resume and its
embedding record. -/
def sysWithAlice : SysState :=
  { store := { persons := [personRow1], nextPid := 2, nextRid := 11 }, index := [pt10] }

/-- C6 fails on the code: deleting the Person removes the relational rows
but leaves the Embedding Record, and a subsequent filtered search still
returns the deleted person's resume. -/
theorem delete_person_leaves_embedding_record :
    (delete_person_run sysWithAlice 1).1 = PyOutcome.ok "Person deleted successfully" ∧
    (delete_person_run sysWithAlice 1).2.store.persons = [] ∧
    (delete_person_run sysWithAlice 1).2.index = [pt10] ∧
    Embedder.search_with_filter (delete_person_run sysWithAlice 1).2.index (fun _ => 0)
        { skills := some [], years_of_experience := some 0 } 5 = [pt10] := by
  decide

/-- The 3-year python candidate's embedding record. -/
def ptPython : EmbPoint :=
  { id := 1, skills := ["python"], years_of_experience := 3, person_id := 1 }

/-- The 7-year java candidate's embedding record. -/
def ptJava : EmbPoint :=
  { id := 2, skills := ["java"], years_of_experience := 7, person_id := 2 }

/-- The search request of the C7 scenario. -/
def reqMin5Python : CVSearchRequest :=
  { query := "engineer", limit := 5, skills := some ["python"],
    years_of_experience := some 5 }

/-- C7 fails on the code: the API writes the threshold under the dict key
`years_of_experience` while the embedder reads `yoe`, so the must clause
degenerates to `years_of_experience >= 0`: the 3-year python candidate is
returned alongside the 7-year one instead of being excluded. -/
theorem search_min_years_threshold_dropped :
    (searchFilterOf reqMin5Python).yoe = none ∧
    (searchFilterOf reqMin5Python).years_of_experience = some 5 ∧
    ptPython.years_of_experience < 5 ∧
    Embedder.search_with_filter [ptPython, ptJava] (fun _ => 0)
        (searchFilterOf reqMin5Python) reqMin5Python.limit = [ptPython, ptJava] := by
  decide

/-! ### C8: update gate on resume status -/

/-- C8: a well-formed update request against a resume whose current status
is not SUCCESS (QUEUED or ERROR) is rejected with the conflicting-state
error, and the store and the vector index are left untouched
(spec-modelled `get_resume_file`). -/
theorem update_cv_rejects_non_success (st : SysState) (rid : Nat) (filename : String)
    (ig : Ingested) (ex : Extracted) (embedServiceOk : Bool) (rf : ResumeFile)
    (hpdf : pyEndsWith filename ".pdf" = true)
    (hrf : get_resume_file st.store rid = some rf)
    (hst : rf.status ≠ "SUCCESS") :
    update_cv_run st rid filename (some ig) (Except.ok ex) embedServiceOk
      = (PyOutcome.httpException 400 "Resume file is not in a valid state for update", st) := by
  unfold update_cv_run
  rw [if_neg (by simp [hpdf])]
  simp only [hrf]
  rw [if_pos hst]

/-- A stored resume still QUEUED. -/
def resumeQueued : ResumeFile :=
  { id := 10, person_id := 1, filename := "cv.pdf", status := "QUEUED" }

/-- Its owning person row. -/
def personRowQ : Person :=
  { id := 1, full_name := "Alice", email := "alice@x.com", resume_files := [resumeQueued] }

/-- A state holding a QUEUED resume. -/
def sysQueued : SysState :=
  { store := { persons := [personRowQ], nextPid := 2, nextRid := 11 }, index := [] }

/-- Witness for C8 at the QUEUED resume. -/
theorem update_cv_rejects_non_success_witness :
    update_cv_run sysQueued 10 "new.pdf"
        (some { file_path := "tmp/new.pdf", raw_text := "raw" }) (Except.ok exAlice) true
      = (PyOutcome.httpException 400 "Resume file is not in a valid state for update",
         sysQueued) :=
  update_cv_rejects_non_success sysQueued 10 "new.pdf"
    { file_path := "tmp/new.pdf", raw_text := "raw" } exAlice true resumeQueued
    (by decide) (by decide) (by decide)

/-! ### C9: batch ingestion failure behavior -/

theorem ingest_folder_go (files : List String)
    (pdfText : String → Except String String) (acc : FolderIngested) :
    (files.foldl (fun acc f =>
      match pdfText f with
      | Except.ok t => { acc with raw_texts := acc.raw_texts ++ [t] }
      | Except.error e =>
          { acc with reported := acc.reported ++ ["Error processing file " ++ f ++ ": " ++ e] })
      acc)
    = { raw_texts := acc.raw_texts ++ files.filterMap (fun f => (pdfText f).toOption),
        reported := acc.reported ++ files.filterMap (fun f =>
          match pdfText f with
          | Except.ok _ => none
          | Except.error e => some ("Error processing file " ++ f ++ ": " ++ e)) } := by
  induction files generalizing acc with
  | nil => simp
  | cons f fs ih =>
      rw [List.foldl_cons, List.filterMap_cons, List.filterMap_cons]
      cases hf : pdfText f with
      | ok t => simp [hf, ih, Except.toOption]
      | error e => simp [hf, ih, Except.toOption]

/-- The structured data extracted from a second concrete resume. -/
def exBob : Extracted :=
  { name := some "Bob", email := some "bob@y.com", skills := ["java"],
    years_of_experience := 7 }

/-- Extractor oracle of the C9 scenario: documents 1 and 3 extract to two
distinct candidates, document 2 raises. -/
def extract3 (t : String) : Except String Extracted :=
  if t = "doc1" then Except.ok exAlice
  else if t = "doc2" then Except.error "Extraction failed"
  else Except.ok exBob

/-- C9 counterexample: an extraction failure on document 2 aborts the batch
loop — document 3 is never processed (Bob is not created), contrary to the
claim that the other documents complete. -/
theorem folder_batch_aborts_on_extraction_failure :
    (folder_upload_loop {} [("doc1", "f1.pdf"), ("doc2", "f2.pdf"), ("doc3", "f3.pdf")]
        extract3 "gdrive://folder" true).1 = PyOutcome.raised "Extraction failed" ∧
    ((folder_upload_loop {} [("doc1", "f1.pdf"), ("doc2", "f2.pdf"), ("doc3", "f3.pdf")]
        extract3 "gdrive://folder" true).2.store.persons.map (fun p => p.email))
      = ["alice@x.com"] := by
  decide

/-- C9 (amended): the ingestor layer does skip-and-report — a PDF
text-extraction failure is caught per file, reported with a printed error
line, and the remaining files still contribute their texts in order; but in
the API batch loop a structured-extraction failure propagates and aborts
the remaining documents, returning the exception with the state reached so
far. -/
theorem folder_ingest_skips_but_extract_aborts (files : List String)
    (pdfText : String → Except String String) (st : SysState)
    (doc : String × String) (rest : List (String × String))
    (extract : String → Except String Extracted) (folderUrl : String)
    (embedServiceOk : Bool) (e : String)
    (hex : extract doc.1 = Except.error e) :
    ((ingest_folder_run files pdfText).raw_texts
        = files.filterMap (fun f => (pdfText f).toOption)) ∧
    ((ingest_folder_run files pdfText).reported
        = files.filterMap (fun f =>
            match pdfText f with
            | Except.ok _ => none
            | Except.error err => some ("Error processing file " ++ f ++ ": " ++ err))) ∧
    (folder_upload_loop st (doc :: rest) extract folderUrl embedServiceOk
        = (PyOutcome.raised e, st)) := by
  refine ⟨?_, ?_, ?_⟩
  · rw [ingest_folder_run, ingest_folder_go]
    simp
  · rw [ingest_folder_run, ingest_folder_go]
    simp
  · obtain ⟨dt, dp⟩ := doc
    simp only at hex
    rw [folder_upload_loop]
    simp only [hex]

/-- The PDF extraction oracle of the C9 scenario: file 2 is unreadable. -/
def pdf3 (f : String) : Except String String :=
  if f = "f1.pdf" then Except.ok "doc1"
  else if f = "f2.pdf" then Except.error "bad pdf"
  else Except.ok "doc3"

/-- Witness for the amended C9 at the three-document batch. -/
theorem folder_ingest_skips_but_extract_aborts_witness :
    ((ingest_folder_run ["f1.pdf", "f2.pdf", "f3.pdf"] pdf3).raw_texts
        = ["f1.pdf", "f2.pdf", "f3.pdf"].filterMap (fun f => (pdf3 f).toOption)) ∧
    ((ingest_folder_run ["f1.pdf", "f2.pdf", "f3.pdf"] pdf3).reported
        = ["f1.pdf", "f2.pdf", "f3.pdf"].filterMap (fun f =>
            match pdf3 f with
            | Except.ok _ => none
            | Except.error err => some ("Error processing file " ++ f ++ ": " ++ err))) ∧
    (folder_upload_loop {} [("doc2", "f2.pdf"), ("doc3", "f3.pdf")] extract3
        "gdrive://folder" true = (PyOutcome.raised "Extraction failed", {})) :=
  folder_ingest_skips_but_extract_aborts ["f1.pdf", "f2.pdf", "f3.pdf"] pdf3 {}
    ("doc2", "f2.pdf") [("doc3", "f3.pdf")] extract3 "gdrive://folder" true
    "Extraction failed" (by rfl)

/-! ### C3: the undefined CRUD methods -/

/-- C3 counterexample: a search whose vector query returns no hits succeeds
(200 with an empty result list) before the missing `get_resume_file` is
ever resolved, so search-cv does not fail on every invocation. -/
theorem search_cv_succeeds_on_empty_index :
    search_cv_run {} (fun _ => 0) { query := "engineer" }
      = (PyOutcome.ok [], ({} : SysState)) := by
  decide

/-- C3 (amended): `create_person` raises AttributeError before any store
write on every input; delete-resume-file raises AttributeError on every
invocation; update-cv fails on every invocation (a prelude rejection or the
AttributeError at the `get_resume_file` resolution) with the state
unchanged; search-cv raises AttributeError exactly when the vector query
returns at least one hit, and succeeds with an empty result when it
returns none. -/
theorem missing_crud_methods_fail_endpoints (s : Store) (person : Person)
    (ed : List Education) (rf : List ResumeFile) (st st2 st3 : SysState)
    (rid rid2 : Nat) (filename : String) (ing : Option Ingested)
    (exr : Except String Extracted) (embedServiceOk : Bool)
    (score : EmbPoint → Int) (payload : CVSearchRequest)
    (hq : payload.query ≠ "") :
    create_person_raw s person ed rf
        = (PyOutcome.attributeError "get_person_by_email", s) ∧
    delete_resume_file_run st rid
        = (PyOutcome.attributeError "get_resume_file", st) ∧
    ((update_cv_raw st2 rid2 filename ing exr embedServiceOk).1.isOk = false ∧
     (update_cv_raw st2 rid2 filename ing exr embedServiceOk).2 = st2) ∧
    ((Embedder.search_with_filter st3.index score (searchFilterOf payload)
          payload.limit ≠ [] →
        (search_cv_run st3 score payload).1
          = PyOutcome.attributeError "get_resume_file") ∧
     (Embedder.search_with_filter st3.index score (searchFilterOf payload)
          payload.limit = [] →
        search_cv_run st3 score payload = (PyOutcome.ok [], st3))) := by
  have hm1 : ¬ ("get_person_by_email" ∈ crudMethods) := by decide
  have hm2 : ¬ ("get_resume_file" ∈ crudMethods) := by decide
  refine ⟨?_, ?_, ?_, ?_, ?_⟩
  · unfold create_person_raw
    rw [if_neg hm1]
  · unfold delete_resume_file_run
    rw [if_neg hm2]
  · unfold update_cv_raw
    by_cases hf : pyEndsWith filename ".pdf" = true
    · rw [if_neg (by simp [hf])]
      cases ing with
      | none => exact ⟨rfl, rfl⟩
      | some ig =>
          cases exr with
          | error e => exact ⟨rfl, rfl⟩
          | ok ex =>
              dsimp only
              rw [if_neg hm2]
              exact ⟨rfl, rfl⟩
    · rw [if_pos hf]
      exact ⟨rfl, rfl⟩
  · intro hne
    unfold search_cv_run
    rw [if_neg hq]
    have hie : (Embedder.search_with_filter st3.index score (searchFilterOf payload)
        payload.limit).isEmpty = false := by
      cases hl : Embedder.search_with_filter st3.index score (searchFilterOf payload)
          payload.limit with
      | nil => exact absurd hl hne
      | cons a l => rfl
    simp only [hie]
    rw [if_neg (by simp), if_neg hm2]
  · intro hemp
    unfold search_cv_run
    rw [if_neg hq]
    simp only [hemp]
    rfl

/-- Witness for the amended C3 at concrete inputs (a populated index makes
the search fail; the other endpoints fail on any input). -/
theorem missing_crud_methods_fail_endpoints_witness :
    create_person_raw {} personA [] []
        = (PyOutcome.attributeError "get_person_by_email", ({} : Store)) ∧
    delete_resume_file_run {} 10
        = (PyOutcome.attributeError "get_resume_file", ({} : SysState)) ∧
    (update_cv_raw {} 10 "cv.pdf" (some { file_path := "x", raw_text := "raw" })
        (Except.ok exAlice) true).1.isOk = false ∧
    (search_cv_run { index := [ptPython, ptJava] } (fun _ => 0) reqMin5Python).1
        = PyOutcome.attributeError "get_resume_file" := by
  have h := missing_crud_methods_fail_endpoints {} personA [] [] {} {}
      { index := [ptPython, ptJava] } 10 10 "cv.pdf"
      (some { file_path := "x", raw_text := "raw" }) (Except.ok exAlice) true
      (fun _ => 0) reqMin5Python (by decide)
  exact ⟨h.1, h.2.1, h.2.2.1.1, h.2.2.2.1 (by decide)⟩
